import Mathlib

/-!
Verification of the selector-resolution and wait engine of the GIKYOKU
screenplay library (a fork of testla-screenplay-playwright) against its
natural-language specification.

The development shallowly embeds:
- the DOM as seen by the resolver (a rose tree of elements carrying a tag,
  rendered text and a visibility flag);
- the sub-selector chain data model and the recursive locator lookup
  (the implementation file `src/web/utils.ts` exporting
  `recursiveLocatorLookup`/`subLocatorLookup` is not under `src/`; it is
  modelled from the spec, with the shape of the data and the descent
  behaviour taken from the call sites and tests that are under `src/`);
- the polling wait with its timeout semantics;
- the `check*` assertion family of `BrowseTheWeb`
  (`src/src/web/abilities/BrowseTheWeb.ts`);
- the `Element` question with its chained mode operators
  (`src/src/web/questions/Element.ts`) and the runtime payload predicates
  of `src/src/web/types.ts`.
-/

namespace Gikyoku

/-! ## String utilities

Playwright's `hasText` narrows to elements whose rendered text contains the
given string.  `strContains needle hay` decides substring containment. -/

/-- `charsStartWith pre l` is true when `pre` is an initial segment of `l`. -/
def charsStartWith : List Char → List Char → Bool
  | [], _ => true
  | _ :: _, [] => false
  | a :: as, b :: bs => a == b && charsStartWith as bs

/-- `charsContain hay needle` is true when `needle` occurs contiguously in `hay`. -/
def charsContain (hay needle : List Char) : Bool :=
  match hay with
  | [] => needle.isEmpty
  | _ :: t => charsStartWith needle hay || charsContain t needle

/-- Substring test on strings, used for the `hasText` filter. -/
def strContains (needle hay : String) : Bool :=
  charsContain hay.toList needle.toList

/-! ## The document model

The spec (§6) requires of the document context only: find elements matching
a structural query, filter matches by visible text, find within a match,
report the presence/visibility state of a match, and count matches.  A DOM
node carries an identity, a tag (standing for the structural query it
answers to), its own rendered text, a visibility flag and its children. -/

/-- A DOM element: identity, tag, own rendered text, visibility, children. -/
inductive DomNode : Type where
  | mk (eid : Nat) (tag : String) (ownText : String) (visible : Bool) (kids : List DomNode)

/-- Identity of a DOM element. -/
def DomNode.eid : DomNode → Nat
  | .mk i _ _ _ _ => i

/-- Tag of a DOM element (the structural query it matches). -/
def DomNode.tag : DomNode → String
  | .mk _ t _ _ _ => t

/-- Visibility state of a DOM element. -/
def DomNode.visible : DomNode → Bool
  | .mk _ _ _ v _ => v

mutual

/-- All strict descendants of a node, in document order. -/
def DomNode.descendants : DomNode → List DomNode
  | .mk _ _ _ _ kids => DomNode.descendantsList kids

/-- All members of a forest together with their strict descendants. -/
def DomNode.descendantsList : List DomNode → List DomNode
  | [] => []
  | k :: ks => k :: (DomNode.descendants k ++ DomNode.descendantsList ks)

end

mutual

/-- The rendered text of a node: its own text followed by its descendants'
text, which is what a text filter matches against (spec §4.2 tie-breaks:
"substring/pattern matching on the rendered (visible) text"). -/
def DomNode.fullText : DomNode → String
  | .mk _ _ tx _ kids => tx ++ DomNode.fullTextList kids

/-- Concatenated rendered text of a forest. -/
def DomNode.fullTextList : List DomNode → String
  | [] => ""
  | k :: ks => DomNode.fullText k ++ DomNode.fullTextList ks

end

/-! ## The sub-selector chain and the recursive lookup -/

/-- One level of a selector: a base query plus an optional text filter.
Modelled from the spec: the `SelectorOptions`/`SubSelector` type
declarations (`src/web/types.ts` of the older revision) are not under
`src/`; the shape — a base selector with an optional `hasText`, each level
optionally carrying one nested sub-selector — is reconstructed from the
call sites (`hasText: ..., subSelector: [sel, { hasText: ..., subSelector:
[...] }]`) in `src/src/web/abilities/BrowseTheWeb.ts` and the
`Wait + Recursive Locators` tests. -/
structure SpecLevel where
  base : String
  hasText : Option String
deriving Repr

/-- Whether a node matches one level: its tag answers the base query and,
when a text filter is present, the filter occurs in the rendered text. -/
def levelAccepts (lvl : SpecLevel) (e : DomNode) : Bool :=
  e.tag == lvl.base &&
    match lvl.hasText with
    | none => true
    | some t => strContains t e.fullText

/-- The matches of one level sought within a node: its descendants that
the level accepts. -/
def levelMatches (lvl : SpecLevel) (e : DomNode) : List DomNode :=
  e.descendants.filter (levelAccepts lvl)

/-- Modelled from the spec: the recursive descent of `subLocatorLookup`
(`src/web/utils.ts`, not under `src/`).  Starting from the current match
set, each successive level is resolved within the current matches, which
become the new search roots — spec §4.2 step 3: "recursively resolve the
sub-spec within the current query's matched element as the new search
root".  The composed query ends at the innermost level, as documented by
the composed-locator comment
(`table1 >> tbody tr >> has text Conway >> td`) accompanying the
`Wait + Recursive Locators` test of the repository. -/
def resolveFrom (cur : List DomNode) : List SpecLevel → List DomNode
  | [] => cur
  | lvl :: rest => resolveFrom (cur.flatMap (levelMatches lvl)) rest

/-- Modelled from the spec: `recursiveLocatorLookup` composing the whole
chain against the document root (spec §4.2, recursive composition). -/
def resolveLevels (root : DomNode) (levels : List SpecLevel) : List DomNode :=
  resolveFrom [root] levels

/-- Errors of the single-handle resolution path.  Modelled from the spec
(§7): the timeout failure carries elapsed time and match count, the
ambiguity failure is a distinct constructor carrying the match count. -/
inductive ResolutionError : Type where
  | timeout (elapsedMs : Nat) (matchCount : Nat)
  | ambiguous (matchCount : Nat)
deriving DecidableEq, Repr

/-- Modelled from the spec: the single-handle resolution used by
interactions (spec §4.2 tie-breaks: zero matches share the timeout failure
path; several matches must fail for an interaction rather than silently
pick the first; a returned handle must satisfy the target state, `visible`
by default).  Evaluated against the current document, so the elapsed time
of an immediate failure is 0. -/
def resolveForInteraction (root : DomNode) (levels : List SpecLevel) :
    Except ResolutionError DomNode :=
  match resolveLevels root levels with
  | [] => .error (.timeout 0 0)
  | [e] => if e.visible then .ok e else .error (.timeout 0 1)
  | es => .error (.ambiguous es.length)

/-- The count query of `BrowseTheWeb.checkSelectorCount`
(`src/src/web/abilities/BrowseTheWeb.ts` lines 812–826): the locator is
built directly from the base selector — `this.page.locator(selector)` —
with no text filter, no sub-selector, no state wait and no uniqueness
requirement. -/
def countMatches (root : DomNode) (selector : String) : Nat :=
  (root.descendants.filter (fun e => e.tag == selector)).length

/-! ## Target states and the option merge of the check methods -/

/-- The four target states of `WaitForLocatorActionOptions.state`
(`src/src/web/types.ts` lines 394–404). -/
inductive LookupState : Type where
  | attached | detached | visible | hidden
deriving DecidableEq, Repr

/-- Modelled from the spec: the state default of the lookup
(`subLocatorLookup` is not under `src/`).  `src/src/web/types.ts` line 396
documents the same default: "Defaults to `'visible'`". -/
def effectiveState (state : Option LookupState) : LookupState :=
  state.getD .visible

/-- The selector lookup options threaded to `recursiveLocatorLookup`.
Modelled from the spec: the type declaration is not under `src/`; the
fields are reconstructed from the call sites in
`src/src/web/abilities/BrowseTheWeb.ts` (`hasText`, `subSelector`,
`state`, `timeout`). -/
structure SelectorOptions where
  hasText : Option String := none
  subSelector : Option (List SpecLevel) := none
  state : Option LookupState := none
  timeout : Option Nat := none

/-- The option merge of `BrowseTheWeb.checkVisibilityState`
(`src/src/web/abilities/BrowseTheWeb.ts` lines 513–536): the positive
branch passes `{ ...options, state: "visible" }`, the negative branch
`{ ...options, state: "hidden" }`, overriding any caller-supplied state. -/
def checkVisibilityLookupOptions (positive : Bool) (options : SelectorOptions) :
    SelectorOptions :=
  if positive then { options with state := some .visible }
  else { options with state := some .hidden }

/-- The option merge of `BrowseTheWeb.checkEnabledState` (lines 557–580):
both branches pass `{ ...options, state: "visible" }`. -/
def checkEnabledLookupOptions (positive : Bool) (options : SelectorOptions) :
    SelectorOptions :=
  if positive then { options with state := some .visible }
  else { options with state := some .visible }

/-- The option merge of `BrowseTheWeb.checkEditableState` (lines 601–624):
both branches pass `{ ...options, state: "visible" }`. -/
def checkEditableLookupOptions (positive : Bool) (options : SelectorOptions) :
    SelectorOptions :=
  if positive then { options with state := some .visible }
  else { options with state := some .visible }

/-- The option merge of `BrowseTheWeb.checkFocusedState` (lines 645–668):
both branches pass `{ ...options, state: "visible" }`. -/
def checkFocusedLookupOptions (positive : Bool) (options : SelectorOptions) :
    SelectorOptions :=
  if positive then { options with state := some .visible }
  else { options with state := some .visible }

/-- The option merge of `BrowseTheWeb.checkCheckedState` (lines 677–700):
both branches pass `{ ...options, state: "visible" }`. -/
def checkCheckedLookupOptions (positive : Bool) (options : SelectorOptions) :
    SelectorOptions :=
  if positive then { options with state := some .visible }
  else { options with state := some .visible }

/-! ## The polling wait -/

/-- Outcome of a bounded polling wait: resolved at poll `t`, or timed out
at poll `t`. -/
inductive WaitOutcome : Type where
  | resolved (t : Nat)
  | timedOut (t : Nat)
deriving DecidableEq, Repr

/-- Modelled from the spec: the bounded polling loop of the state wait
(`locator.waitFor` driven by `subLocatorLookup`, not under `src/`), in
units of one polling quantum.  `pollWithin ok t r` evaluates the state at
poll `t`; on success it resolves, otherwise with remaining budget `r` it
re-evaluates at the next quantum, and at an exhausted budget it fails. -/
def pollWithin (ok : Nat → Bool) : Nat → Nat → WaitOutcome
  | t, 0 => if ok t then .resolved t else .timedOut t
  | t, r + 1 => if ok t then .resolved t else pollWithin ok (t + 1) r

/-- An unbounded wait resolves at `t` exactly when the state first holds at
`t`.  This characterises the deadline-free loop, which cannot be written as
a total function. -/
def UnboundedResolvesAt (ok : Nat → Bool) (t : Nat) : Prop :=
  ok t = true ∧ ∀ s, s < t → ok s = false

/-- Modelled from the spec: when the wait resolves, as a function of the
timeout (in polling quanta).  A timeout of `0` disables the deadline — the
repository documents this semantics itself: "Maximum time in milliseconds.
Defaults to `0` - no timeout" (`src/src/web/types.ts` lines 406–412) — so
the loop polls without bound; a nonzero timeout bounds the loop. -/
def waitResolvesAt (ok : Nat → Bool) (timeout t : Nat) : Prop :=
  if timeout = 0 then UnboundedResolvesAt ok t
  else pollWithin ok 0 timeout = .resolved t

/-- Modelled from the spec: when the wait fails, as a function of the
timeout.  Only a bounded wait can time out; with `timeout = 0` there is no
deadline (`src/src/web/types.ts` lines 406–412). -/
def waitTimesOutAt (ok : Nat → Bool) (timeout t : Nat) : Prop :=
  timeout ≠ 0 ∧ pollWithin ok 0 timeout = .timedOut t

/-- A state sequence that first becomes satisfied at poll 3. -/
def okAfterThree : Nat → Bool := fun t => decide (3 ≤ t)

/-! ## The assertion family of `BrowseTheWeb`

Each `check*` method of `src/src/web/abilities/BrowseTheWeb.ts` performs
`await expect(...).toX(...)` (which throws on failure) in one of two
branches chosen by `positive`, and then unconditionally executes
`return Promise.resolve(true)`.  The embedding threads the truth of the
asserted condition as a boolean. -/

/-- `await expect(...)`: succeeds when the condition holds, otherwise
throws the assertion error. -/
def expectAssert (cond : Bool) (message : String) : Except String Unit :=
  if cond then .ok () else .error message

/-- Runs an assertion and then `return Promise.resolve(true)`, the common
tail of every `check*` method. -/
def assertThen (check : Except String Unit) : Except String Bool := do
  check
  return true

/-- `BrowseTheWeb.checkVisibilityState` (lines 513–536): `toBeVisible` when
positive, `toBeHidden` otherwise, then `return true`. -/
def checkVisibilityState (positive isVisible isHidden : Bool) : Except String Bool :=
  assertThen
    (if positive then expectAssert isVisible "toBeVisible"
     else expectAssert isHidden "toBeHidden")

/-- `BrowseTheWeb.checkEnabledState` (lines 557–580): `toBeEnabled` when
positive, `toBeDisabled` otherwise, then `return true`. -/
def checkEnabledState (positive isEnabled isDisabled : Bool) : Except String Bool :=
  assertThen
    (if positive then expectAssert isEnabled "toBeEnabled"
     else expectAssert isDisabled "toBeDisabled")

/-- `BrowseTheWeb.checkEditableState` (lines 601–624): `toBeEditable` when
positive, `not.toBeEditable` otherwise, then `return true`. -/
def checkEditableState (positive isEditable : Bool) : Except String Bool :=
  assertThen
    (if positive then expectAssert isEditable "toBeEditable"
     else expectAssert (!isEditable) "not.toBeEditable")

/-- `BrowseTheWeb.checkFocusedState` (lines 645–668): `toBeFocused` when
positive, `not.toBeFocused` otherwise, then `return true`. -/
def checkFocusedState (positive isFocused : Bool) : Except String Bool :=
  assertThen
    (if positive then expectAssert isFocused "toBeFocused"
     else expectAssert (!isFocused) "not.toBeFocused")

/-- `BrowseTheWeb.checkCheckedState` (lines 677–700): `toBeChecked` when
positive, `not.toBeChecked` otherwise, then `return true`. -/
def checkCheckedState (positive isChecked : Bool) : Except String Bool :=
  assertThen
    (if positive then expectAssert isChecked "toBeChecked"
     else expectAssert (!isChecked) "not.toBeChecked")

/-- `BrowseTheWeb.checkPageUrl` (lines 439–450): `toHaveURL` when positive,
`not.toHaveURL` otherwise, then `return true`. -/
def checkPageUrl (positive hasUrl : Bool) : Except String Bool :=
  assertThen
    (if positive then expectAssert hasUrl "toHaveURL"
     else expectAssert (!hasUrl) "not.toHaveURL")

/-- `BrowseTheWeb.checkPageTitle` (lines 460–471): `toHaveTitle` when
positive, `not.toHaveTitle` otherwise, then `return true`. -/
def checkPageTitle (positive hasTitle : Bool) : Except String Bool :=
  assertThen
    (if positive then expectAssert hasTitle "toHaveTitle"
     else expectAssert (!hasTitle) "not.toHaveTitle")

/-- `BrowseTheWeb.checkSelectorText` (lines 710–734): `toHaveText` when
positive, `not.toHaveText` otherwise, then `return true`. -/
def checkSelectorText (positive hasTextNow : Bool) : Except String Bool :=
  assertThen
    (if positive then expectAssert hasTextNow "toHaveText"
     else expectAssert (!hasTextNow) "not.toHaveText")

/-- `BrowseTheWeb.checkSelectorContainText` (lines 744–768):
`toContainText` when positive, `not.toContainText` otherwise, then
`return true`. -/
def checkSelectorContainText (positive containsTextNow : Bool) : Except String Bool :=
  assertThen
    (if positive then expectAssert containsTextNow "toContainText"
     else expectAssert (!containsTextNow) "not.toContainText")

/-- `BrowseTheWeb.checkSelectorValue` (lines 778–802): `toHaveValue` when
positive, `not.toHaveValue` otherwise, then `return true`. -/
def checkSelectorValue (positive hasValueNow : Bool) : Except String Bool :=
  assertThen
    (if positive then expectAssert hasValueNow "toHaveValue"
     else expectAssert (!hasValueNow) "not.toHaveValue")

/-- `BrowseTheWeb.checkSelectorCSS` (lines 836–860): `toHaveCSS` when
positive, `not.toHaveCSS` otherwise, then `return true`. -/
def checkSelectorCSS (positive hasCSSNow : Bool) : Except String Bool :=
  assertThen
    (if positive then expectAssert hasCSSNow "toHaveCSS"
     else expectAssert (!hasCSSNow) "not.toHaveCSS")

/-- `BrowseTheWeb.checkSelectorScreenshot` (lines 870–894):
`toHaveScreenshot` when positive, `not.toHaveScreenshot` otherwise, then
`return true`. -/
def checkSelectorScreenshot (positive matchesShot : Bool) : Except String Bool :=
  assertThen
    (if positive then expectAssert matchesShot "toHaveScreenshot"
     else expectAssert (!matchesShot) "not.toHaveScreenshot")

/-- `BrowseTheWeb.checkLocatorHasText` of the locator-based revision
(`src/unnamed/part_001`): same two-branch shape, then `return true`. -/
def checkLocatorHasText (positive hasTextNow : Bool) : Except String Bool :=
  assertThen
    (if positive then expectAssert hasTextNow "toHaveText"
     else expectAssert (!hasTextNow) "not.toHaveText")

/-- `BrowseTheWeb.checkLocatorHasCount` of the locator-based revision
(`src/unnamed/part_001`): same two-branch shape, then `return true`. -/
def checkLocatorHasCount (positive hasCountNow : Bool) : Except String Bool :=
  assertThen
    (if positive then expectAssert hasCountNow "toHaveCount"
     else expectAssert (!hasCountNow) "not.toHaveCount")

/-- `BrowseTheWeb.checkSelectorCount`
(`src/src/web/abilities/BrowseTheWeb.ts` lines 812–826): the locator is
the bare base selector, then `toHaveCount(count)` when positive,
`not.toHaveCount(count)` otherwise, then `return true`. -/
def checkSelectorCount (root : DomNode) (selector : String) (count : Nat)
    (positive : Bool) : Except String Bool :=
  assertThen
    (if positive then expectAssert (countMatches root selector == count) "toHaveCount"
     else expectAssert (!(countMatches root selector == count)) "not.toHaveCount")

/-! ## The `Element` question

`src/src/web/questions/Element.ts`: a mutable question object holding a
`positive` flag, a `mode`, a `payload` and an `options` slot, mutated in
place by the chained mode operators and by the `not` getter, and
dispatched to a `BrowseTheWeb` check method by `answeredBy`. -/

/-- A runtime JavaScript value occupying the `payload` slot.  The typed
facade restricts what each operator accepts, but the runtime guards of
`answeredBy` (`isTextPayload` and friends) exist precisely because an
untyped caller can store anything. -/
inductive JsValue : Type where
  | str (s : String)
  | regex (pattern : String)
  | num (n : Int)
  | arr (elems : List JsValue)
  | styleObj (name : String) (value : JsValue)

/-- A string or a regular expression, the atom of the payload schemas. -/
def isStrOrRegex : JsValue → Bool
  | .str _ => true
  | .regex _ => true
  | _ => false

/-- `isTextPayload` (`src/src/web/types.ts` lines 431–440): a string, a
regex, or an array of strings and regexes. -/
def isTextPayload : JsValue → Bool
  | .str _ => true
  | .regex _ => true
  | .arr xs => xs.all isStrOrRegex
  | _ => false

/-- `isValuePayload` (`src/src/web/types.ts` lines 443–448): a string or a
regex. -/
def isValuePayload (v : JsValue) : Bool :=
  isStrOrRegex v

/-- `isCountPayload` (`src/src/web/types.ts` lines 451–455): a number. -/
def isCountPayload : JsValue → Bool
  | .num _ => true
  | _ => false

/-- `isStylePayload` (`src/src/web/types.ts` lines 458–466): an object with
a string `name` and a string-or-regex `value`. -/
def isStylePayload : JsValue → Bool
  | .styleObj _ v => isStrOrRegex v
  | _ => false

/-- `isScreenshotPayload` (`src/src/web/types.ts` lines 469–476): a string
or an array of strings. -/
def isScreenshotPayload : JsValue → Bool
  | .str _ => true
  | .arr xs => xs.all (fun x => match x with | .str _ => true | _ => false)
  | _ => false

/-- The mode of an `Element` question (`ElementQuestionMode` of
`src/src/web/types.ts` lines 417–428, plus `inViewport`, which
`Element.ts` assigns and dispatches). -/
inductive ElementMode : Type where
  | visible | enabled | editable | checked | focused | inViewport
  | haveText | haveValue | haveCount | haveCSS | haveScreenshot | containText
deriving DecidableEq, Repr

/-- The assertion options stored by the mode operators (the `Options`
union of `Element.ts` lines 19–26). -/
structure QOptions where
  timeout : Option Nat := none
  ignoreCase : Option Bool := none
  useInnerText : Option Bool := none
  ratio : Option Nat := none
  flag : Option Bool := none
deriving DecidableEq, Repr

/-- The mutable state of an `Element` question (`Element.ts` lines 34–50):
the locator given to `Element.of`, the `positive` flag, the `mode`, the
`payload` and the `options`. -/
structure Element where
  locator : String
  positive : Bool
  mode : ElementMode
  payload : JsValue
  options : Option QOptions

/-- `Element.of(locator)` (lines 666–675): a fresh question with the
field initialisers of lines 34–43 — `positive = true`, `mode = "visible"`,
`payload = ""`, no options. -/
def Element.of (locator : String) : Element :=
  { locator := locator, positive := true, mode := .visible,
    payload := .str "", options := none }

/-- The `not` getter (lines 195–209): sets `positive` to `false` on the
same instance and returns it. -/
def Element.notOf (q : Element) : Element :=
  { q with positive := false }

/-- A chained mode operator call, with the arguments the caller passed. -/
inductive ElementOp : Type where
  | visibleOp (options : Option QOptions)
  | enabledOp (options : Option QOptions)
  | editableOp (options : Option QOptions)
  | checkedOp (options : Option QOptions)
  | focusedOp (options : Option QOptions)
  | inViewportOp (options : Option QOptions)
  | haveTextOp (text : JsValue) (options : Option QOptions)
  | containTextOp (text : JsValue) (options : Option QOptions)
  | haveValueOp (value : JsValue) (options : Option QOptions)
  | haveCountOp (count : JsValue) (options : Option QOptions)
  | haveCSSOp (name : String) (value : JsValue) (options : Option QOptions)
  | haveScreenshotOp (name : JsValue) (options : Option QOptions)

/-- Applying a mode operator to the question instance (`Element.ts` lines
211–664): every operator overwrites `mode` and `options` on `this`; the
payload-carrying operators also overwrite `payload`; none of them touches
`positive`; each returns `this`. -/
def applyOp (q : Element) : ElementOp → Element
  | .visibleOp o => { q with mode := .visible, options := o }
  | .enabledOp o => { q with mode := .enabled, options := o }
  | .editableOp o => { q with mode := .editable, options := o }
  | .checkedOp o => { q with mode := .checked, options := o }
  | .focusedOp o => { q with mode := .focused, options := o }
  | .inViewportOp o => { q with mode := .inViewport, options := o }
  | .haveTextOp t o => { q with mode := .haveText, payload := t, options := o }
  | .containTextOp t o => { q with mode := .containText, payload := t, options := o }
  | .haveValueOp v o => { q with mode := .haveValue, payload := v, options := o }
  | .haveCountOp c o => { q with mode := .haveCount, payload := c, options := o }
  | .haveCSSOp n v o => { q with mode := .haveCSS, payload := .styleObj n v, options := o }
  | .haveScreenshotOp n o => { q with mode := .haveScreenshot, payload := n, options := o }

/-- The ability method that `answeredBy` invokes, with the arguments it
forwards. -/
inductive AbilityCall : Type where
  | visibilityState (locator : String) (positive : Bool) (options : Option QOptions)
  | enabledState (locator : String) (positive : Bool) (options : Option QOptions)
  | editableState (locator : String) (positive : Bool) (options : Option QOptions)
  | checkedState (locator : String) (positive : Bool) (options : Option QOptions)
  | focusedState (locator : String) (positive : Bool) (options : Option QOptions)
  | inViewportState (locator : String) (positive : Bool) (options : Option QOptions)
  | locatorHasText (locator : String) (payload : JsValue) (positive : Bool)
      (options : Option QOptions)
  | locatorContainsText (locator : String) (payload : JsValue) (positive : Bool)
      (options : Option QOptions)
  | locatorHasValue (locator : String) (payload : JsValue) (positive : Bool)
      (options : Option QOptions)
  | locatorHasCount (locator : String) (payload : JsValue) (positive : Bool)
      (options : Option QOptions)
  | locatorHasCSS (locator : String) (payload : JsValue) (positive : Bool)
      (options : Option QOptions)
  | locatorHasScreenshot (locator : String) (payload : JsValue) (positive : Bool)
      (options : Option QOptions)

/-- `Element.answeredBy` (`Element.ts` lines 59–193): dispatches on the
current `mode`; the state modes call the corresponding check method with
`(locator, positive, options)`; the payload modes first guard the stored
payload with the matching runtime predicate and throw
`"Element.<mode>: incompatible payload."` when it fails — this is the only
validation the source performs, and it runs at evaluation time. -/
def Element.answeredBy (q : Element) : Except String AbilityCall :=
  match q.mode with
  | .visible => .ok (.visibilityState q.locator q.positive q.options)
  | .enabled => .ok (.enabledState q.locator q.positive q.options)
  | .editable => .ok (.editableState q.locator q.positive q.options)
  | .checked => .ok (.checkedState q.locator q.positive q.options)
  | .focused => .ok (.focusedState q.locator q.positive q.options)
  | .inViewport => .ok (.inViewportState q.locator q.positive q.options)
  | .haveText =>
      if isTextPayload q.payload then
        .ok (.locatorHasText q.locator q.payload q.positive q.options)
      else .error "Element.haveText: incompatible payload."
  | .containText =>
      if isTextPayload q.payload then
        .ok (.locatorContainsText q.locator q.payload q.positive q.options)
      else .error "Element.containText: incompatible payload."
  | .haveValue =>
      if isValuePayload q.payload then
        .ok (.locatorHasValue q.locator q.payload q.positive q.options)
      else .error "Element.haveValue: incompatible payload."
  | .haveCount =>
      if isCountPayload q.payload then
        .ok (.locatorHasCount q.locator q.payload q.positive q.options)
      else .error "Element.haveCount: incompatible payload."
  | .haveCSS =>
      if isStylePayload q.payload then
        .ok (.locatorHasCSS q.locator q.payload q.positive q.options)
      else .error "Element.haveCSS: incompatible payload."
  | .haveScreenshot =>
      if isScreenshotPayload q.payload then
        .ok (.locatorHasScreenshot q.locator q.payload q.positive q.options)
      else .error "Element.haveScreenshot: incompatible payload."

/-- A question whose `haveText` operator was handed a number instead of a
text payload: the source stores it unchecked. -/
def badPayloadQuestion : Element :=
  applyOp (Element.of "h3") (.haveTextOp (.num 5) none)

/-! ## Concrete documents used by the counterexamples and witnesses -/

/-- A table cell holding the text `$50.00`. -/
def cellNode : DomNode := .mk 3 "td" "$50.00" true []

/-- The single table row, containing `cellNode`. -/
def rowNode : DomNode := .mk 2 "tr" "" true [cellNode]

/-- A table with exactly one row, whose one cell reads `$50.00`. -/
def tableRoot : DomNode := .mk 1 "table" "" true [rowNode]

/-- The one-child spec of the C1 scenario: base `tr`, one child `td` with
text filter `$50.00`. -/
def rowSpecChain : List SpecLevel :=
  [⟨"tr", none⟩, ⟨"td", some "$50.00"⟩]

/-- The same spec with its one child constraint removed. -/
def rowOnlyChain : List SpecLevel :=
  [⟨"tr", none⟩]

/-- Cells of the first row of the Conway table. -/
def tdSmithName : DomNode := .mk 13 "td" "Smith" true []

/-- Amount cell of the first row. -/
def tdSmithVal : DomNode := .mk 14 "td" "$40.00" true []

/-- Cells of the second row of the Conway table. -/
def tdConwayName : DomNode := .mk 15 "td" "Conway" true []

/-- Amount cell of the second row. -/
def tdConwayVal : DomNode := .mk 16 "td" "$50.00" true []

/-- First row of the Conway table. -/
def trSmith : DomNode := .mk 11 "tr" "" true [tdSmithName, tdSmithVal]

/-- Second row of the Conway table. -/
def trConway : DomNode := .mk 12 "tr" "" true [tdConwayName, tdConwayVal]

/-- The table of the `Wait + Recursive Locators` test: two rows, each a
name cell and an amount cell. -/
def conwayTable : DomNode := .mk 10 "table" "" true [trSmith, trConway]

/-- A body containing the Conway table. -/
def conwayRoot : DomNode := .mk 9 "body" "" true [conwayTable]

/-- The two-level nested spec of the `Wait + Recursive Locators` test:
`table`, whose child `tr` (text `Conway`) itself carries a further child
`td` (text `$50.00`) — nesting one level deeper than the spec admits. -/
def twoLevelNestedChain : List SpecLevel :=
  [⟨"table", none⟩, ⟨"tr", some "Conway"⟩, ⟨"td", some "$50.00"⟩]

/-- Three matching buttons, none of them visible. -/
def buttonA : DomNode := .mk 21 "button" "Add Element" false []

/-- Second of the three buttons. -/
def buttonB : DomNode := .mk 22 "button" "Add Element" false []

/-- Third of the three buttons. -/
def buttonC : DomNode := .mk 23 "button" "Add Element" false []

/-- A body containing three `button` elements with identical text and no
disambiguating constraint available. -/
def buttonsRoot : DomNode := .mk 20 "body" "" true [buttonA, buttonB, buttonC]

/-- The undisambiguated button spec. -/
def buttonChain : List SpecLevel := [⟨"button", none⟩]

/-! ## Helper lemmas -/

/-- Whatever boolean an assertion-then-true method returns is `true`. -/
lemma assertThen_ok (c : Except String Unit) (r : Bool)
    (h : assertThen c = .ok r) : r = true := by
  cases c with
  | ok u =>
      have h' : (Except.ok true : Except String Bool) = .ok r := h
      exact (Except.ok.inj h').symm
  | error e =>
      have h' : (Except.error e : Except String Bool) = .ok r := h
      exact Except.noConfusion h'

/-- No mode operator touches the `positive` flag. -/
lemma applyOp_positive (q : Element) (op : ElementOp) :
    (applyOp q op).positive = q.positive := by
  cases op <;> rfl

/-- No chain of mode operators touches the `positive` flag. -/
lemma foldl_applyOp_positive (ops : List ElementOp) (q : Element) :
    (ops.foldl applyOp q).positive = q.positive := by
  induction ops generalizing q with
  | nil => rfl
  | cons o os ih => simpa [List.foldl] using (ih (applyOp q o)).trans (applyOp_positive q o)

/-- Resolving a concatenated chain resolves the front first. -/
lemma resolveFrom_append (cur : List DomNode) (ls ms : List SpecLevel) :
    resolveFrom cur (ls ++ ms) = resolveFrom (resolveFrom cur ls) ms := by
  induction ls generalizing cur with
  | nil => rfl
  | cons l ls ih => simp [resolveFrom, ih]

/-- Membership in a resolved chain decomposes through the current match
set: the element arises within one of the current roots. -/
lemma mem_resolveFrom (e : DomNode) (cur : List DomNode) (ls : List SpecLevel) :
    e ∈ resolveFrom cur ls ↔ ∃ p ∈ cur, e ∈ resolveFrom [p] ls := by
  induction ls generalizing cur with
  | nil => simp [resolveFrom]
  | cons l ls ih =>
      simp only [resolveFrom]
      rw [ih]
      constructor
      · rintro ⟨q, hq, he⟩
        rcases List.mem_flatMap.mp hq with ⟨p, hp, hqp⟩
        refine ⟨p, hp, ?_⟩
        rw [ih]
        exact ⟨q, by simpa using hqp, he⟩
      · rintro ⟨p, hp, he⟩
        rw [ih] at he
        rcases he with ⟨q, hq, he⟩
        exact ⟨q, List.mem_flatMap.mpr ⟨p, hp, by simpa using hq⟩, he⟩

/-- A level's matches carry the level's base as their tag. -/
lemma mem_levelMatches_tag (lvl : SpecLevel) (p e : DomNode)
    (h : e ∈ levelMatches lvl p) : e.tag = lvl.base := by
  rcases List.mem_filter.mp h with ⟨_, hacc⟩
  have := (Bool.and_eq_true _ _).mp hacc
  exact eq_of_beq this.1

/-! ## Claim C9 -/

/-- Claim C9: every state- or property-checking method of `BrowseTheWeb`
(`checkVisibilityState`, `checkEnabledState`, `checkEditableState`,
`checkFocusedState`, `checkCheckedState`, `checkPageUrl`,
`checkPageTitle`, and the `checkSelector*`/`checkLocator*` family) either
throws the underlying assertion error or returns `true`: a returned value
of `false` is unreachable, despite the docstrings promising "false if the
timeout was reached". -/
theorem browse_checks_never_return_false
    (positive a b : Bool) (root : DomNode) (selector : String) (n : Nat) (r : Bool) :
    (checkVisibilityState positive a b = .ok r → r = true) ∧
    (checkEnabledState positive a b = .ok r → r = true) ∧
    (checkEditableState positive a = .ok r → r = true) ∧
    (checkFocusedState positive a = .ok r → r = true) ∧
    (checkCheckedState positive a = .ok r → r = true) ∧
    (checkPageUrl positive a = .ok r → r = true) ∧
    (checkPageTitle positive a = .ok r → r = true) ∧
    (checkSelectorText positive a = .ok r → r = true) ∧
    (checkSelectorContainText positive a = .ok r → r = true) ∧
    (checkSelectorValue positive a = .ok r → r = true) ∧
    (checkSelectorCSS positive a = .ok r → r = true) ∧
    (checkSelectorScreenshot positive a = .ok r → r = true) ∧
    (checkSelectorCount root selector n positive = .ok r → r = true) ∧
    (checkLocatorHasText positive a = .ok r → r = true) ∧
    (checkLocatorHasCount positive a = .ok r → r = true) :=
  ⟨assertThen_ok _ r, assertThen_ok _ r, assertThen_ok _ r, assertThen_ok _ r,
   assertThen_ok _ r, assertThen_ok _ r, assertThen_ok _ r, assertThen_ok _ r,
   assertThen_ok _ r, assertThen_ok _ r, assertThen_ok _ r, assertThen_ok _ r,
   assertThen_ok _ r, assertThen_ok _ r, assertThen_ok _ r⟩

/-- Witness for C9 at a concrete input: a satisfied positive visibility
check returns `true`. -/
theorem browse_checks_never_return_false_witness : (true : Bool) = true :=
  (browse_checks_never_return_false true true false tableRoot "td" 1 true).1 rfl

/-! ## Claim C10 -/

/-- Claim C10: the chained mode operators of an `Element` question mutate
one shared mode/payload/options triple, so the dispatch performed at
evaluation depends only on the last operator applied (and the `positive`
flag), never on earlier operator calls; a fresh `Element.of` question with
no operator applied evaluates as the positive visibility check; and once
the `not` getter has been read, the question stays negated under every
further chain of mode operators. -/
theorem element_mode_chaining
    (q q' : Element) (op : ElementOp) (ops : List ElementOp) (locator : String) :
    (q.locator = q'.locator → q.positive = q'.positive →
      (applyOp q op).answeredBy = (applyOp q' op).answeredBy) ∧
    ((Element.of locator).answeredBy = .ok (.visibilityState locator true none)) ∧
    ((ops.foldl applyOp (Element.notOf q)).positive = false) := by
  refine ⟨?_, rfl, ?_⟩
  · intro hloc hpos
    cases op <;> simp [applyOp, Element.answeredBy, hloc, hpos]
  · exact (foldl_applyOp_positive ops (Element.notOf q)).trans rfl

/-- Witness for C10 at concrete inputs: two questions that already carry
different modes, payloads and options dispatch identically once the same
final operator is applied. -/
theorem element_mode_chaining_witness :
    (applyOp (Element.of "h3") (.enabledOp none)).answeredBy
      = (applyOp badPayloadQuestion (.enabledOp none)).answeredBy :=
  (element_mode_chaining (Element.of "h3") badPayloadQuestion (.enabledOp none) [] "h3").1
    rfl rfl

/-! ## Claim C3 -/

/-- Claim C3 counterexample: an invalid payload survives construction and
operator chaining unrejected — the constructed question still holds the
incompatible payload — and the failure only surfaces at evaluation time,
inside `answeredBy`, as a plain `Error`, not as a `ValidationError` at
construction.  Likewise an empty base selector is constructed without any
validation and flows to resolution, where it simply matches nothing (the
ordinary not-found path), rather than failing fast at construction. -/
theorem validation_at_construction_counterexample :
    badPayloadQuestion.payload = .num 5 ∧
    badPayloadQuestion.answeredBy = .error "Element.haveText: incompatible payload." ∧
    resolveLevels tableRoot [⟨"", none⟩] = [] ∧
    resolveForInteraction tableRoot [⟨"", none⟩] = .error (.timeout 0 0) :=
  ⟨rfl, rfl, rfl, rfl⟩

/-- Claim C3 amended: the source performs no construction-time validation;
specs and payloads are stored as plain data.  The only validation is the
payload guard inside `Element.answeredBy`, which runs at evaluation time
and throws the plain error `"Element.haveText: incompatible payload."`
whenever the stored payload fails `isTextPayload`; empty base selectors
are never validated and resolve to the empty match set. -/
theorem validation_deferred_to_evaluation
    (q : Element) (t : JsValue) (o : Option QOptions) (root : DomNode)
    (h : isTextPayload t = false) :
    (applyOp q (.haveTextOp t o)).payload = t ∧
    (applyOp q (.haveTextOp t o)).answeredBy
      = .error "Element.haveText: incompatible payload." ∧
    resolveLevels root [⟨"", none⟩]
      = (root.descendants.filter (levelAccepts ⟨"", none⟩)) := by
  refine ⟨rfl, ?_, ?_⟩
  · simp [applyOp, Element.answeredBy, h]
  · simp [resolveLevels, resolveFrom, levelMatches]

/-- Witness for C3's amended theorem at a concrete input. -/
theorem validation_deferred_to_evaluation_witness :
    badPayloadQuestion.payload = .num 5 ∧
    badPayloadQuestion.answeredBy = .error "Element.haveText: incompatible payload." :=
  ⟨rfl,
    (validation_deferred_to_evaluation (Element.of "h3") (.num 5) none tableRoot rfl).2.1⟩

/-! ## Claim C7 -/

/-- Claim C7: a resolution request that does not specify a target state
waits for `visible`; and the state-checking questions force the lookup
state regardless of caller-supplied options — `checkVisibilityState`
passes `visible` in the positive branch and `hidden` in the negative
branch, while `checkEnabledState`, `checkEditableState`,
`checkFocusedState` and `checkCheckedState` pass `visible` in both
branches; the other caller-supplied lookup options are left intact. -/
theorem state_checks_force_state (positive : Bool) (options : SelectorOptions) :
    effectiveState none = .visible ∧
    (checkVisibilityLookupOptions true options).state = some .visible ∧
    (checkVisibilityLookupOptions false options).state = some .hidden ∧
    (checkEnabledLookupOptions positive options).state = some .visible ∧
    (checkEditableLookupOptions positive options).state = some .visible ∧
    (checkFocusedLookupOptions positive options).state = some .visible ∧
    (checkCheckedLookupOptions positive options).state = some .visible ∧
    (checkVisibilityLookupOptions positive options).hasText = options.hasText ∧
    (checkVisibilityLookupOptions positive options).timeout = options.timeout := by
  cases positive <;>
    simp [effectiveState, checkVisibilityLookupOptions, checkEnabledLookupOptions,
      checkEditableLookupOptions, checkFocusedLookupOptions, checkCheckedLookupOptions]

/-! ## Claim C1 -/

/-- Claim C1 counterexample: against a table whose base `tr` matches
exactly one parent row, the spec `tr` with one child `td` filtered by
`$50.00` resolves to the *cell* matched by the child sub-spec, not to the
parent row matched by the base — the composed query descends into the
child, as the composed-locator comment of the repository's own
`Wait + Recursive Locators` test documents. -/
theorem resolve_parent_handle_counterexample :
    resolveLevels tableRoot rowOnlyChain = [rowNode] ∧
    resolveLevels tableRoot rowSpecChain = [cellNode] ∧
    resolveForInteraction tableRoot rowSpecChain = .ok cellNode ∧
    cellNode.eid ≠ rowNode.eid :=
  ⟨rfl, rfl, rfl, by decide⟩

/-- Claim C1 amended: for a spec with a child sub-spec, resolution returns
a handle to an element matched by the *innermost* child level — every
resolved element carries the innermost base, the parent matches serving
only as the search scope. -/
theorem resolve_returns_innermost
    (root : DomNode) (levels : List SpecLevel) (lvl : SpecLevel) (e : DomNode)
    (h : e ∈ resolveLevels root (levels ++ [lvl])) : e.tag = lvl.base := by
  have hsplit : resolveLevels root (levels ++ [lvl])
      = (resolveFrom [root] levels).flatMap (levelMatches lvl) := by
    simp [resolveLevels, resolveFrom_append, resolveFrom]
  rw [hsplit] at h
  rcases List.mem_flatMap.mp h with ⟨p, _, hmem⟩
  exact mem_levelMatches_tag lvl p e hmem

/-- Witness for C1's amended theorem: the resolved handle of the row/cell
spec carries the child's base `td`. -/
theorem resolve_returns_innermost_witness : cellNode.tag = "td" :=
  resolve_returns_innermost tableRoot rowOnlyChain ⟨"td", some "$50.00"⟩ cellNode
    (by
      have h : resolveLevels tableRoot (rowOnlyChain ++ [⟨"td", some "$50.00"⟩])
          = [cellNode] := rfl
      rw [h]
      exact List.mem_singleton_self cellNode)

/-! ## Claim C4 -/

/-- Claim C4: when a spec matches more than one element and no narrowing
brings the match set down to one, single-handle resolution (the path used
by interactions such as click) fails with the ambiguity error — a
constructor distinct from the timeout error — and never silently returns
the first match. -/
theorem ambiguous_match_distinct_error
    (root : DomNode) (levels : List SpecLevel)
    (h : 2 ≤ (resolveLevels root levels).length) :
    resolveForInteraction root levels
      = .error (.ambiguous (resolveLevels root levels).length) ∧
    ∀ n elapsed m, (ResolutionError.ambiguous n) ≠ .timeout elapsed m := by
  refine ⟨?_, by intro n elapsed m heq; exact ResolutionError.noConfusion heq⟩
  rcases hres : resolveLevels root levels with _ | ⟨a, _ | ⟨b, rest⟩⟩
  · rw [hres] at h; simp at h
  · rw [hres] at h; simp at h
  · simp [resolveForInteraction, hres]

/-- Witness for C4: three matching buttons with no disambiguating
constraint make the single-handle path fail with the ambiguity error. -/
theorem ambiguous_match_distinct_error_witness :
    resolveForInteraction buttonsRoot buttonChain
      = .error (.ambiguous (resolveLevels buttonsRoot buttonChain).length) :=
  (ambiguous_match_distinct_error buttonsRoot buttonChain (by decide)).1

/-! ## Claim C6 -/

/-- Claim C6 counterexample: the two-level nested spec of the repository's
`Wait + Recursive Locators` test — a child sub-spec (`tr`, text `Conway`)
that itself carries a further child (`td`, text `$50.00`) — is resolved
successfully rather than rejected: the chain is three levels long and
resolution returns the innermost cell. -/
theorem depth_limit_counterexample :
    twoLevelNestedChain.length = 3 ∧
    resolveLevels conwayRoot twoLevelNestedChain = [tdConwayVal] ∧
    resolveForInteraction conwayRoot twoLevelNestedChain = .ok tdConwayVal :=
  ⟨rfl, rfl, rfl⟩

/-- Claim C6 amended: sub-specs nest recursively with no depth limit —
each nested level, however deep, is resolved within the previous level's
matches by the same lookup step, and a chain split at any point resolves
the front first and continues from its matches. -/
theorem nesting_resolves_recursively
    (root : DomNode) (lvl : SpecLevel) (rest ls ms : List SpecLevel)
    (cur : List DomNode) :
    resolveLevels root (lvl :: rest) = resolveFrom (levelMatches lvl root) rest ∧
    resolveFrom cur (ls ++ ms) = resolveFrom (resolveFrom cur ls) ms := by
  constructor
  · simp [resolveLevels, resolveFrom]
  · exact resolveFrom_append cur ls ms

/-! ## Claim C8 -/

/-- Claim C8 counterexample: removing the one child constraint of the
row/cell spec does not merely grow the match set — the matched elements
change from the cell to the row, so the original match set is not
contained in the widened one. -/
theorem narrowing_monotonicity_counterexample :
    resolveLevels tableRoot rowSpecChain = [cellNode] ∧
    resolveLevels tableRoot rowOnlyChain = [rowNode] ∧
    ¬ ((resolveLevels tableRoot rowSpecChain).map DomNode.eid
        ⊆ (resolveLevels tableRoot rowOnlyChain).map DomNode.eid) :=
  ⟨rfl, rfl, by decide⟩

/-- Claim C8 amended: for a spec with a child sub-spec, resolution returns
a handle only if the parent's own filter and the child's containment
constraint both hold — every resolved element is a child match found
within a parent match — and removing the child constraint never makes a
resolvable spec unresolvable; but the match set itself is not monotone
under removal of the child, because the matched elements move from the
child to the parent. -/
theorem narrowing_only_if_and_resolvability
    (root : DomNode) (levels : List SpecLevel) (lvl : SpecLevel) (e : DomNode) :
    (e ∈ resolveLevels root (levels ++ [lvl]) →
      ∃ p ∈ resolveLevels root levels, e ∈ levelMatches lvl p) ∧
    (resolveLevels root (levels ++ [lvl]) ≠ [] → resolveLevels root levels ≠ []) := by
  have hsplit : resolveLevels root (levels ++ [lvl])
      = (resolveLevels root levels).flatMap (levelMatches lvl) := by
    simp [resolveLevels, resolveFrom_append, resolveFrom]
  constructor
  · intro h
    rw [hsplit] at h
    exact List.mem_flatMap.mp h
  · intro hne hnil
    rw [hsplit, hnil] at hne
    exact hne rfl

/-- Witness for C8's amended theorem: for the row/cell spec, the resolved
cell is a child match inside a matching row, and the child-free spec still
resolves. -/
theorem narrowing_only_if_and_resolvability_witness :
    (∃ p ∈ resolveLevels tableRoot rowOnlyChain,
      cellNode ∈ levelMatches ⟨"td", some "$50.00"⟩ p) ∧
    resolveLevels tableRoot rowOnlyChain ≠ [] := by
  have h := narrowing_only_if_and_resolvability tableRoot rowOnlyChain
    ⟨"td", some "$50.00"⟩ cellNode
  refine ⟨h.1 ?_, h.2 ?_⟩
  · have heq : resolveLevels tableRoot (rowOnlyChain ++ [⟨"td", some "$50.00"⟩])
        = [cellNode] := rfl
    rw [heq]
    exact List.mem_singleton_self cellNode
  · intro hnil
    have heq : resolveLevels tableRoot (rowOnlyChain ++ [⟨"td", some "$50.00"⟩])
        = [cellNode] := rfl
    rw [heq] at hnil
    exact List.noConfusion hnil

/-! ## Claim C5 -/

/-- Claim C5: the count-style check issues its query directly from the
base selector — it counts all base matches, with no text filter, no child
narrowing, no state wait and no uniqueness requirement — and succeeds even
where the single-handle resolution path fails as ambiguous. -/
theorem count_bypasses_single_handle
    (root : DomNode) (selector : String) (n : Nat)
    (hn : countMatches root selector = n) :
    checkSelectorCount root selector n true = .ok true ∧
    resolveLevels root [⟨selector, none⟩]
      = root.descendants.filter (fun e => e.tag == selector) ∧
    (2 ≤ n → resolveForInteraction root [⟨selector, none⟩] = .error (.ambiguous n)) := by
  have haccepts : ∀ e, levelAccepts ⟨selector, none⟩ e = (e.tag == selector) := by
    intro e; simp [levelAccepts]
  have hbase : resolveLevels root [⟨selector, none⟩]
      = root.descendants.filter (fun e => e.tag == selector) := by
    have h1 : resolveLevels root [⟨selector, none⟩] = levelMatches ⟨selector, none⟩ root := by
      simp [resolveLevels, resolveFrom]
    rw [h1, levelMatches]
    exact List.filter_congr (fun e _ => haccepts e)
  refine ⟨?_, hbase, ?_⟩
  · simp [checkSelectorCount, expectAssert, assertThen, hn]
  · intro h2
    have hlen : (resolveLevels root [⟨selector, none⟩]).length = n := by
      rw [hbase]; exact hn
    rcases hres : resolveLevels root [⟨selector, none⟩] with _ | ⟨a, _ | ⟨b, rest⟩⟩
    · exfalso
      have h0 : (List.length ([] : List DomNode)) = n := hres ▸ hlen
      simp at h0
      omega
    · exfalso
      have h1 : ([a].length) = n := hres ▸ hlen
      simp at h1
      omega
    · have hn2 : ((a :: b :: rest).length) = n := hres ▸ hlen
      simp [resolveForInteraction, hres, hn2]

/-- Witness for C5: three invisible buttons — the count check succeeds at
count 3 without any visibility wait while the single-handle path fails as
ambiguous. -/
theorem count_bypasses_single_handle_witness :
    checkSelectorCount buttonsRoot "button" 3 true = .ok true ∧
    resolveForInteraction buttonsRoot [⟨"button", none⟩] = .error (.ambiguous 3) := by
  have h := count_bypasses_single_handle buttonsRoot "button" 3 rfl
  exact ⟨h.1, h.2.2 (by decide)⟩

/-! ## Claim C2 -/

/-- Claim C2 counterexample: with `timeout = 0` and a target state not
satisfied at the first evaluation, the wait does not fail at all — it
keeps polling and resolves at the third quantum — because a timeout of `0`
disables the deadline ("Defaults to `0` - no timeout",
`src/src/web/types.ts`); it neither evaluates exactly once nor fails
immediately. -/
theorem timeout_zero_counterexample :
    okAfterThree 0 = false ∧
    waitResolvesAt okAfterThree 0 3 ∧
    (∀ t, ¬ waitTimesOutAt okAfterThree 0 t) ∧
    ¬ waitResolvesAt okAfterThree 0 0 := by
  refine ⟨rfl, ?_, ?_, ?_⟩
  · show UnboundedResolvesAt okAfterThree 3
    exact ⟨rfl, by decide⟩
  · intro t h
    exact h.1 rfl
  · intro h
    have h' : UnboundedResolvesAt okAfterThree 0 := h
    have : okAfterThree 0 = true := h'.1
    simp [okAfterThree] at this

/-- Claim C2 amended: `timeoutMs = 0` disables the deadline rather than
meaning "check once": the wait with timeout `0` can never time out, and it
resolves exactly at the first quantum at which the target state holds,
however late that is. -/
theorem timeout_zero_means_no_timeout
    (ok : Nat → Bool) (t : Nat)
    (hsat : ok t = true) (hfirst : ∀ s, s < t → ok s = false) :
    waitResolvesAt ok 0 t ∧ ∀ u, ¬ waitTimesOutAt ok 0 u := by
  constructor
  · show UnboundedResolvesAt ok t
    exact ⟨hsat, hfirst⟩
  · intro u h
    exact h.1 rfl

/-- Witness for C2's amended theorem: a state first satisfied at quantum 3
resolves there under timeout `0` and never times out. -/
theorem timeout_zero_means_no_timeout_witness :
    waitResolvesAt okAfterThree 0 3 ∧ ∀ u, ¬ waitTimesOutAt okAfterThree 0 u :=
  timeout_zero_means_no_timeout okAfterThree 3 (by decide) (by decide)

end Gikyoku




